import Mathlib

/-!
Verification of the episodic sub-sampler in `btgym/datafeed/base.py`
(class `BTgymBaseData`): partition planning (`_reset`), constrained episode
sampling (`_sample_interval`, `_sample_random`) and the caching `sample`
front-end (`_sample`).

Modelling conventions:
* timestamps and timedeltas are integers (seconds); `datetime.timedelta`
  arithmetic is exact integer arithmetic;
* Python floats produced by `numpy.random.beta` / `random.random` are
  idealized as exact rationals (`ℚ`), supplied by an oracle stream; `int()`
  is truncation toward zero and `round()` is Python 3 half-to-even rounding,
  both implemented on exact rationals;
* the random source is explicit: `rng a b k` is the `k`-th value returned by
  `numpy.random.beta(a=a, b=b)`, `urng k` the `k`-th value of
  `random.random()`;
* `pandas.DatetimeIndex.get_loc(t, method='nearest')` is an external
  collaborator; it is modelled from the spec (section 4.1): the row whose
  timestamp is closest to `t`, ties broken toward the earlier row;
* the two retry loops are encoded as structural recursion on an explicit
  fuel that strictly exceeds the attempt budget, so that runs on concrete
  data evaluate inside the kernel; the `fuelOut` result is unreachable for
  the fuel used by the wrappers since every iteration increments the
  attempt counter that both loop guards test.
-/

namespace Btgym

/-- Truncation-toward-zero division of `a` by `b` (`b > 0` in all uses):
the value of Python `int(a / b)` on the exact quotient. -/
def truncDiv (a b : ℤ) : ℤ :=
  if 0 ≤ a then a / b else -((-a) / b)

/-- Python 3 `round(a / b)` on the exact quotient, for `b > 0`:
round half to even (banker's rounding). -/
def roundHalfEvenDiv (a b : ℤ) : ℤ :=
  if 2 * (a % b) < b then a / b
  else if b < 2 * (a % b) then a / b + 1
  else if (a / b) % 2 = 0 then a / b else a / b + 1

/-- Python `int(z * u)` for an integer `z` and a rational sample `u`. -/
def pyIntMul (z : ℤ) (u : ℚ) : ℤ := truncDiv (z * u.num) u.den

/-- Python `round(z * u)` for an integer `z` and a rational sample `u`. -/
def pyRoundMul (z : ℤ) (u : ℚ) : ℤ := roundHalfEvenDiv (z * u.num) u.den

/-- The master time series owned by one data instance: a row count and the
timestamp (seconds) of each row.  Rows `0 ≤ i < rowCount` are meaningful;
`ts` is total for convenience. -/
structure Dataset where
  rowCount : ℕ
  ts : ℕ → ℤ

/-- Timestamp of the record at (integer) row `i`, as read by
`self.data[i:i+1].index[0]`.  For a negative `i` Python would wrap around
or raise `IndexError` and for `i ≥ rowCount` it would raise; the model
clamps negatives to `0` and leaves out-of-range lookups to the total
function `ts` (no claim exercises those rows). -/
def rowTs (d : Dataset) (i : ℤ) : ℤ := d.ts i.toNat

/-- Python `Timestamp.weekday()`: Monday = 0 .. Sunday = 6.
Day 0 of the epoch (1970-01-01) was a Thursday (= 3). -/
def weekday (t : ℤ) : ℤ := (t / 86400 + 3) % 7

/-- Python `Timestamp.date()` of `t`, as a calendar moment: midnight
(00:00) of the day containing `t`. -/
def midnight (t : ℤ) : ℤ := 86400 * (t / 86400)

/-- Modelled from the spec: `self.data.index.get_loc(t, method='nearest')`
(pandas, an external collaborator; spec section 4.1
`nearestRowForTimestamp`): the row whose timestamp is closest to `t`,
ties broken toward the earlier row. -/
def nearestRow (d : Dataset) (t : ℤ) : ℕ :=
  (List.range d.rowCount).foldl
    (fun best i => if |d.ts i - t| < |d.ts best - t| then i else best) 0

/-- Duration of the slice `self.data[a : b]` of the dataset:
`index[-1] - index[0]`, i.e. last timestamp minus first timestamp.
Python slicing clamps `b` at `rowCount`. -/
def sliceSpan (d : Dataset) (a : ℕ) (b : ℤ) : ℤ :=
  d.ts (min b (d.rowCount : ℤ) - 1).toNat - d.ts a

/-- A days/hours/minutes duration dictionary, as in the configuration
surface (`sample_duration`, `test_period`, `time_gap`). -/
structure Duration where
  days : ℕ
  hours : ℕ
  minutes : ℕ
  deriving DecidableEq

/-- `datetime.timedelta(**dur).total_seconds()` as an exact integer. -/
def durSeconds (dur : Duration) : ℤ :=
  86400 * dur.days + 3600 * dur.hours + 60 * dur.minutes

/-- A value stored under a key of a Python metadata dictionary:
`None`, an integer, or a string. -/
inductive MetaVal where
  | null : MetaVal
  | num (z : ℤ) : MetaVal
  | str (s : String) : MetaVal
  deriving DecidableEq

/-- The observable content of one sampled episode (the nested data
instance returned by `_sample_interval` / `_sample_random`): its id
string (`filename`), the absolute row range of its data slice, and its
metadata dictionary. Freshly constructed nested instances carry
`metadata = {'sample_num': 0, 'type': None}` and no parent keys. -/
structure Episode where
  filename : String
  first_row : ℕ
  last_row : ℤ
  mtype : MetaVal
  msample_num : ℤ
  parent_sample_num : MetaVal
  parent_sample_type : MetaVal
  deriving DecidableEq

/-- Errors raised by the sampling core.  `insufficientTrain` /
`insufficientTest` are the two `AssertionError`s of `_reset`;
`emptyData`, `badInterval`, `badBeta`, `notReady`, `badSampleType` are the
remaining `AssertionError`s; `assertExhausted` is the bare
`assert attempts <= max_attempts` of `_sample_random` (an
`AssertionError`) and `runtimeExhausted` the `RuntimeError`s of both
samplers; each exhaustion carries the value of the shared attempt counter
at raise time.  `fuelOut` is a model artifact (never produced with the
wrappers' fuel). -/
inductive SErr where
  | emptyData : SErr
  | badInterval : SErr
  | badBeta : SErr
  | notReady : SErr
  | badSampleType : SErr
  | insufficientTrain : SErr
  | insufficientTest : SErr
  | assertExhausted (attempts : ℕ) : SErr
  | runtimeExhausted (attempts : ℕ) : SErr
  | fuelOut : SErr
  deriving DecidableEq

/-- Result of a fallible operation: a value or a raised error. -/
inductive Res (α : Type) where
  | ok (a : α) : Res α
  | err (e : SErr) : Res α
  deriving DecidableEq

/-- Apply `f` to the value of a successful result. -/
def Res.map {α β : Type} (f : α → β) : Res α → Res β
  | .ok a => .ok (f a)
  | .err e => .err e

/-- The mutable attributes of one `BTgymBaseData` instance that the
sampling core reads or writes. -/
structure SamplerState where
  is_ready : Bool
  data : Option Dataset
  timeframe : ℕ
  sample_duration : Duration
  test_period : Duration
  time_gap : Duration
  start_weekdays : List ℤ
  start_00 : Bool
  max_sample_len : ℤ
  max_time_gap : ℤ
  sample_num_records : ℤ
  test_range_delta : ℤ
  train_range_delta : ℤ
  test_num_records : ℤ
  train_num_records : ℤ
  train_interval : ℤ × ℤ
  test_interval : ℤ × ℤ
  sample_num : ℤ
  sample_instance : Option Episode
  sample_name : String
  meta_sample_num : ℤ
  meta_type : MetaVal

/-- `sample_first_day.weekday() in self.start_weekdays` for the record at
row `row`. -/
def goodDay (d : Dataset) (wds : List ℤ) (row : ℤ) : Bool :=
  decide (weekday (rowTs d row) ∈ wds)

/-- Initial candidate draw of `_sample_interval` (base.py line 686):
`interval[0] + int((interval[-1] - interval[0] - sample_num_records) * random_beta(a, b))`. -/
def intervalFirstDraw (lo hi n : ℤ) (u : ℚ) : ℤ := lo + pyIntMul (hi - lo - n) u

/-- Redraw inside the weekday-seeking inner loop of `_sample_interval`
(base.py line 699): `interval[0] + round((interval[-1] - interval[0] - sample_num_records) * random_beta(a, b))`.
Note the source uses `round` here, unlike the `int` of the initial draw. -/
def intervalRedraw (lo hi n : ℤ) (u : ℚ) : ℤ := lo + pyRoundMul (hi - lo - n) u

/-- Candidate draw of `_sample_random` (base.py lines 561 and 568, the same
expression at both sites):
`int((self.data.shape[0] - self.sample_num_records - 1) * random.random())`. -/
def randomDraw (rc n : ℤ) (u : ℚ) : ℤ := pyIntMul (rc - n - 1) u

/-- The anchor moment used to seed the final window lookup: the calendar
midnight of the candidate record's day when `start_00` is set, the
record's own timestamp otherwise (base.py lines 719-725). -/
def adjTime (start00 : Bool) (d : Dataset) (row : ℤ) : ℤ :=
  if start00 then midnight (rowTs d row) else rowTs d row

/-- The actual first row of the episode: the anchor snapped to an existing
record (base.py line 727 / 586). -/
def snapRow (start00 : Bool) (d : Dataset) (row : ℤ) : ℕ :=
  nearestRow d (adjTime start00 d row)

/-- The attempt budget `max_attempts = 100` of both samplers. -/
def maxAttempts : ℕ := 100

/-- Fuel that strictly dominates the attempt budget: each loop iteration
increments the attempt counter, whose guard is `a ≤ 100`, so `102` steps
always reach a return or a raise. -/
def maxFuel : ℕ := maxAttempts + 2

/-- Weekday-seeking inner loop of `_sample_interval` (base.py lines
697-717): while the candidate row's weekday is not an allowed start
weekday and the shared attempt counter has not exceeded the budget,
redraw (with `round`) and increment the counter; after the loop, assert
the counter is within budget, else raise `RuntimeError`.  Returns the
accepted candidate row together with the next draw index and the counter. -/
def intervalSeekDay (d : Dataset) (wds : List ℤ) (lo hi n : ℤ)
    (b_alpha b_beta : ℚ) (rng : ℚ → ℚ → ℕ → ℚ) :
    ℤ → ℕ → ℕ → ℕ → Res (ℤ × ℕ × ℕ)
  | _, _, _, 0 => .err .fuelOut
  | row, k, a, fuel + 1 =>
    if goodDay d wds row = false ∧ a ≤ maxAttempts then
      intervalSeekDay d wds lo hi n b_alpha b_beta rng
        (intervalRedraw lo hi n (rng b_alpha b_beta k)) (k + 1) (a + 1) fuel
    else if a ≤ maxAttempts then .ok (row, k, a)
    else .err (.runtimeExhausted a)

/-- Outer retry loop of `_sample_interval` (base.py lines 684-757): while
the shared attempt counter is within budget, draw a candidate (with
`int`), run the weekday-seeking inner loop, snap the anchor, slice
`[first_row, first_row + sample_num_records)` and accept iff
`sample_len - max_sample_len_delta < max_time_gap`; on rejection increment
the counter and repeat; on budget exhaustion raise `RuntimeError`. -/
def intervalSearch (st : SamplerState) (d : Dataset) (lo hi : ℤ)
    (b_alpha b_beta : ℚ) (name : String) (rng : ℚ → ℚ → ℕ → ℚ) :
    ℕ → ℕ → ℕ → Res Episode
  | _, _, 0 => .err .fuelOut
  | k, a, fuel + 1 =>
    if a ≤ maxAttempts then
      match intervalSeekDay d st.start_weekdays lo hi st.sample_num_records
          b_alpha b_beta rng
          (intervalFirstDraw lo hi st.sample_num_records (rng b_alpha b_beta k))
          (k + 1) a maxFuel with
      | .err e => .err e
      | .ok (row, k2, a2) =>
        if sliceSpan d (snapRow st.start_00 d row)
            ((snapRow st.start_00 d row : ℤ) + st.sample_num_records)
            - st.max_sample_len < st.max_time_gap then
          .ok { filename := name ++ "num_" ++ toString st.sample_num ++ "_at_"
                  ++ toString (adjTime st.start_00 d row),
                first_row := snapRow st.start_00 d row,
                last_row := (snapRow st.start_00 d row : ℤ) + st.sample_num_records,
                mtype := .str "interval_sample", msample_num := 0,
                parent_sample_num := .null, parent_sample_type := .null }
        else
          intervalSearch st d lo hi b_alpha b_beta name rng k2 (a2 + 1) fuel
    else .err (.runtimeExhausted a)

/-- `_sample_interval` (base.py lines 618-757): validations, then the
bounded retry search.  The source's `len(interval) == 2` assertion is
guaranteed here by the pair type.  `rng a b k` models the `k`-th call of
`numpy.random.beta(a=a, b=b)` made by this invocation. -/
def _sample_interval (st : SamplerState) (interval : ℤ × ℤ)
    (b_alpha b_beta : ℚ) (name : String) (rng : ℚ → ℚ → ℕ → ℚ) : Res Episode :=
  match st.data with
  | none => .err .emptyData
  | some d =>
    if d.rowCount = 0 then .err .emptyData
    else if ¬ (0 < b_alpha ∧ 0 < b_beta) then .err .badBeta
    else if ¬ (interval.1 < interval.2 ∧ interval.2 ≤ (d.rowCount : ℤ)) then
      .err .badInterval
    else
      intervalSearch st d interval.1 interval.2 b_alpha b_beta name rng 0 0 maxFuel

/-- Weekday-seeking inner loop of `_sample_random` (base.py lines 566-576):
identical to the inner loop of `_sample_interval` except that the redraw
uses the uniform proposal `int((rowCount - n - 1) * random.random())` and
that exhaustion is raised by a bare `assert` (an `AssertionError`). -/
def randomSeekDay (d : Dataset) (wds : List ℤ) (n : ℤ) (urng : ℕ → ℚ) :
    ℤ → ℕ → ℕ → ℕ → Res (ℤ × ℕ × ℕ)
  | _, _, _, 0 => .err .fuelOut
  | row, k, a, fuel + 1 =>
    if goodDay d wds row = false ∧ a ≤ maxAttempts then
      randomSeekDay d wds n urng
        (randomDraw (d.rowCount : ℤ) n (urng k)) (k + 1) (a + 1) fuel
    else if a ≤ maxAttempts then .ok (row, k, a)
    else .err (.assertExhausted a)

/-- Outer retry loop of `_sample_random` (base.py lines 558-616): the same
snap / slice / gap-acceptance steps as `_sample_interval`, with the
uniform proposal, a `'random_sample'` metadata type and an
`'{name}n{num}_at_{anchor}'` id format. -/
def randomSearch (st : SamplerState) (d : Dataset) (name : String)
    (urng : ℕ → ℚ) : ℕ → ℕ → ℕ → Res Episode
  | _, _, 0 => .err .fuelOut
  | k, a, fuel + 1 =>
    if a ≤ maxAttempts then
      match randomSeekDay d st.start_weekdays st.sample_num_records urng
          (randomDraw (d.rowCount : ℤ) st.sample_num_records (urng k))
          (k + 1) a maxFuel with
      | .err e => .err e
      | .ok (row, k2, a2) =>
        if sliceSpan d (snapRow st.start_00 d row)
            ((snapRow st.start_00 d row : ℤ) + st.sample_num_records)
            - st.max_sample_len < st.max_time_gap then
          .ok { filename := name ++ "n" ++ toString st.sample_num ++ "_at_"
                  ++ toString (adjTime st.start_00 d row),
                first_row := snapRow st.start_00 d row,
                last_row := (snapRow st.start_00 d row : ℤ) + st.sample_num_records,
                mtype := .str "random_sample", msample_num := 0,
                parent_sample_num := .null, parent_sample_type := .null }
        else
          randomSearch st d name urng k2 (a2 + 1) fuel
    else .err (.runtimeExhausted a)

/-- `_sample_random` (base.py lines 531-616): the empty-data check, then
the bounded retry search over the whole dataset.  `urng k` models the
`k`-th call of `random.random()` made by this invocation. -/
def _sample_random (st : SamplerState) (name : String) (urng : ℕ → ℚ) :
    Res Episode :=
  match st.data with
  | none => .err .emptyData
  | some d =>
    if d.rowCount = 0 then .err .emptyData
    else randomSearch st d name urng 0 0 maxFuel

/-- Post-processing of a fresh sample by `_sample` (base.py lines 519-523):
on success, stamp the episode's metadata (`type`, `sample_num`, lineage
back-references copied from the instance's own metadata), increment the
instance's running sample counter and cache the episode; on error the
instance is unchanged. -/
def finishSample (st : SamplerState) (sample_type : ℤ) (r : Res Episode) :
    SamplerState × Res Episode :=
  match r with
  | .err e => (st, .err e)
  | .ok ep =>
    let ep2 := { ep with
                 mtype := .num sample_type,
                 msample_num := st.sample_num,
                 parent_sample_num := .num st.meta_sample_num,
                 parent_sample_type := st.meta_type }
    ({ st with sample_instance := some ep2, sample_num := st.sample_num + 1 },
     .ok ep2)

/-- The fresh-sampling branch of `_sample` (base.py lines 501-523):
dispatch to `_sample_interval` over the train interval with the caller's
beta parameters when `sample_type = 0`, over the test interval with beta
parameters `(1, 1)` when `sample_type = 1`, then post-process. -/
def freshSample (st : SamplerState) (sample_type : ℤ) (b_alpha b_beta : ℚ)
    (rng : ℚ → ℚ → ℕ → ℚ) : SamplerState × Res Episode :=
  finishSample st sample_type
    (if sample_type = 0 then
      _sample_interval st st.train_interval b_alpha b_beta
        ("train_" ++ st.sample_name) rng
    else
      _sample_interval st st.test_interval 1 1
        ("test_" ++ st.sample_name) rng)

/-- `_sample` (base.py lines 456-529): readiness and sample-type checks,
then either reuse of the cached episode (`sample_instance is None or
get_new` false) or a fresh constrained sample. -/
def _sample (st : SamplerState) (get_new : Bool) (sample_type : ℤ)
    (b_alpha b_beta : ℚ) (rng : ℚ → ℚ → ℕ → ℚ) :
    SamplerState × Res Episode :=
  if st.is_ready = false then (st, .err .notReady)
  else if ¬ (sample_type = 0 ∨ sample_type = 1) then (st, .err .badSampleType)
  else
    match st.sample_instance with
    | none => freshSample st sample_type b_alpha b_beta rng
    | some ep =>
      if get_new then freshSample st sample_type b_alpha b_beta rng
      else (st, .ok ep)

/-- `_reset` (base.py lines 291-338), after `read_csv` has delivered the
dataset `d`: compute the episode row count (`int`, i.e. floor for the
non-negative durations of the configuration), the test row count (Python
`round`, half to even), the train row count, check the two partition
invariants (raising `AssertionError` otherwise — the failing path leaves
every attribute assigned so far, and in particular `is_ready`, as it
was), then install the train/test intervals, reset the sample counter and
mark the instance ready. -/
def _reset (st : SamplerState) (d : Dataset) : SamplerState × Res Unit :=
  let bar : ℤ := 60 * st.timeframe
  let mtg := durSeconds st.time_gap
  let msl := durSeconds st.sample_duration
  let snr := truncDiv msl bar
  let trd := durSeconds st.test_period
  let tnr := roundHalfEvenDiv trd bar
  let trn := (d.rowCount : ℤ) - tnr
  let st1 := { st with
               data := some d, max_time_gap := mtg,
               max_sample_len := msl, sample_num_records := snr,
               test_range_delta := trd, train_range_delta := msl - trd,
               test_num_records := tnr, train_num_records := trn }
  if trn < snr then (st1, .err .insufficientTrain)
  else if 0 < tnr ∧ tnr < snr then (st1, .err .insufficientTest)
  else
    ({ st1 with
       train_interval := (0, trn),
       test_interval := (trn, (d.rowCount : ℤ)),
       sample_num := 0, is_ready := true }, .ok ())

/-! Concrete fixtures used to exercise the model on explicit inputs. -/

/-- Oracle on which every random draw is `0`. -/
def rngZero : ℚ → ℚ → ℕ → ℚ := fun _ _ _ => 0

/-- Uniform-oracle analogue of `rngZero`. -/
def urngZero : ℕ → ℚ := fun _ => 0

/-- Five records: one on Friday 1970-01-02 23:50 and four on Saturday
1970-01-03 starting 10:00, one minute apart. -/
def gapData : Dataset :=
  { rowCount := 5, ts := fun i => [172200, 208800, 208860, 208920, 208980].getD i 0 }

/-- A ready sampler over `gapData`: episodes of 3 rows (nominal duration
10 hours), start weekdays `[5]` (Saturday only), midnight alignment on,
and a huge gap tolerance so every slice passes the gap check. -/
def gapState : SamplerState :=
  { is_ready := true, data := some gapData, timeframe := 1,
    sample_duration := ⟨0, 10, 0⟩, test_period := ⟨0, 0, 0⟩,
    time_gap := ⟨0, 0, 0⟩, start_weekdays := [5], start_00 := true,
    max_sample_len := 36000, max_time_gap := 1000000000,
    sample_num_records := 3, test_range_delta := 0, train_range_delta := 0,
    test_num_records := 0, train_num_records := 5,
    train_interval := (0, 5), test_interval := (1, 5), sample_num := 0,
    sample_instance := none, sample_name := "w_0_",
    meta_sample_num := 0, meta_type := .null }

/-- Ten records on Monday 1970-01-05, one minute apart: a dataset whose
weekdays are all `0`. -/
def monData : Dataset := { rowCount := 10, ts := fun i => 345600 + 60 * i }

/-- A ready sampler over `monData` whose allowed start weekdays `[6]`
(Sunday) are disjoint from the data's weekdays. -/
def monState : SamplerState :=
  { gapState with
    data := some monData, start_weekdays := [6],
    start_00 := false, train_interval := (0, 10), test_interval := (0, 10),
    train_num_records := 10 }

/-- Five records on Saturday 1970-01-03 starting 10:00, one minute
apart: a clean dataset on which sampling succeeds at once. -/
def satData : Dataset := { rowCount := 5, ts := fun i => 208800 + 60 * i }

/-- A ready sampler over `satData`: 3-row episodes of nominal duration
2 minutes, gap tolerance 1 minute, Saturday starts, no alignment. -/
def satState : SamplerState :=
  { gapState with
    data := some satData, start_00 := false,
    max_sample_len := 120, max_time_gap := 60,
    train_interval := (0, 5), test_interval := (0, 5) }

/-- An unloaded, never-reset instance with a 3-minute episode duration
and an empty test period (the constructor defaults except for
`start_weekdays := [0]` and `sample_duration`). -/
def freshState : SamplerState :=
  { is_ready := false, data := none, timeframe := 1,
    sample_duration := ⟨0, 0, 3⟩, test_period := ⟨0, 0, 0⟩,
    time_gap := ⟨0, 0, 0⟩, start_weekdays := [0], start_00 := false,
    max_sample_len := 0, max_time_gap := 0, sample_num_records := 0,
    test_range_delta := 0, train_range_delta := 0, test_num_records := 0,
    train_num_records := 0, train_interval := (0, 0),
    test_interval := (0, 0), sample_num := 0, sample_instance := none,
    sample_name := "w_0_", meta_sample_num := 0, meta_type := .null }

/-- `freshState` with a 4-minute test period, for a split reset. -/
def c1State : SamplerState := { freshState with test_period := ⟨0, 0, 4⟩ }

/-- An episode standing for a previously cached sample. -/
def cachedEp : Episode :=
  { filename := "cached", first_row := 1, last_row := 4,
    mtype := .num 0, msample_num := 5,
    parent_sample_num := .null, parent_sample_type := .null }

/-- The rational `7/10`, a concrete beta/uniform sample value. -/
def u07 : ℚ := ⟨7, 10, by decide, by decide⟩

/-- `freshState` with a one-day episode duration: too long for the ten
rows of `monData`, so planning fails. -/
def c5FailState : SamplerState :=
  { freshState with sample_duration := ⟨1, 0, 0⟩ }

/-- The state of a successfully reset instance whose episode duration was
afterwards enlarged through the public batch attribute setter
(`set_params`), so that the next re-plan fails while the instance is
still marked ready. -/
def c5ReadyState : SamplerState :=
  { (_reset freshState monData).1 with sample_duration := ⟨1, 0, 0⟩ }

/-- The episode produced by `_sample_interval satState (0, 5) 1 1 "x"` on
the all-zero oracle. -/
def epSat : Episode :=
  { filename := "xnum_0_at_208800", first_row := 0, last_row := 3,
    mtype := .str "interval_sample", msample_num := 0,
    parent_sample_num := .null, parent_sample_type := .null }

/-- The episode produced by `_sample_random satState "r_"` on the
all-zero oracle. -/
def epRand : Episode :=
  { filename := "r_n0_at_208800", first_row := 0, last_row := 3,
    mtype := .str "random_sample", msample_num := 0,
    parent_sample_num := .null, parent_sample_type := .null }

/-- The episode returned by a fresh train `_sample` on `satState` with
the all-zero oracle, after metadata stamping. -/
def epTrain : Episode :=
  { filename := "train_w_0_num_0_at_208800", first_row := 0, last_row := 3,
    mtype := .num 0, msample_num := 0,
    parent_sample_num := .num 0, parent_sample_type := .null }

/-- `satState` holding a cached episode. -/
def cachedState : SamplerState :=
  { satState with sample_instance := some cachedEp }

/-- `satState` with the ready flag cleared. -/
def notReadyState : SamplerState :=
  { satState with is_ready := false }

/-! General lemmas about the embedded operations. -/

theorem durSeconds_nonneg (dur : Duration) : 0 ≤ durSeconds dur := by
  unfold durSeconds
  omega

theorem truncDiv_of_nonneg {a : ℤ} (b : ℤ) (h : 0 ≤ a) : truncDiv a b = a / b := by
  unfold truncDiv
  rw [if_pos h]

theorem roundHalfEvenDiv_bounds (a b : ℤ) :
    a / b ≤ roundHalfEvenDiv a b ∧ roundHalfEvenDiv a b ≤ a / b + 1 := by
  unfold roundHalfEvenDiv
  split_ifs <;> omega

theorem num_lt_den_of_lt_one {u : ℚ} (h : u < 1) : u.num < u.den := by
  have hd : (0 : ℚ) < (u.den : ℚ) := by exact_mod_cast u.den_pos
  rw [← Rat.num_div_den u] at h
  exact_mod_cast (div_lt_one hd).mp h

theorem pyIntMul_eq_floor (z : ℤ) (u : ℚ) (hz : 0 ≤ z) (hu : 0 ≤ u) :
    pyIntMul z u = ⌊(z : ℚ) * u⌋ := by
  have hnum : 0 ≤ u.num := Rat.num_nonneg.mpr hu
  have hcast : (z : ℚ) * u = ((z * u.num : ℤ) : ℚ) / ((u.den : ℕ) : ℚ) := by
    conv_lhs => rw [← Rat.num_div_den u]
    push_cast
    ring
  rw [hcast, Rat.floor_intCast_div_natCast]
  unfold pyIntMul
  rw [truncDiv_of_nonneg _ (mul_nonneg hz hnum)]

theorem intervalSeekDay_ok {d : Dataset} {wds : List ℤ} {lo hi n : ℤ}
    {b_alpha b_beta : ℚ} {rng : ℚ → ℚ → ℕ → ℚ} {row : ℤ} {k a fuel : ℕ}
    {row2 : ℤ} {k2 a2 : ℕ}
    (h : intervalSeekDay d wds lo hi n b_alpha b_beta rng row k a fuel
          = .ok (row2, k2, a2)) :
    goodDay d wds row2 = true ∧ a ≤ a2 ∧ a2 ≤ maxAttempts := by
  induction fuel generalizing row k a with
  | zero => simp [intervalSeekDay] at h
  | succ f ih =>
    rw [intervalSeekDay] at h
    split at h
    · have h2 := ih h
      exact ⟨h2.1, by omega, h2.2.2⟩
    · rename_i hcond
      split at h
      · rename_i hle
        have hgd : goodDay d wds row = true := by
          rcases hg : goodDay d wds row with _ | _
          · exact absurd ⟨hg, hle⟩ hcond
          · rfl
        cases h
        exact ⟨hgd, le_refl _, hle⟩
      · simp at h

theorem intervalSeekDay_err {d : Dataset} {wds : List ℤ} {lo hi n : ℤ}
    {b_alpha b_beta : ℚ} {rng : ℚ → ℚ → ℕ → ℚ} {row : ℤ} {k a fuel : ℕ} {j : ℕ}
    (hA : a ≤ maxAttempts + 1)
    (h : intervalSeekDay d wds lo hi n b_alpha b_beta rng row k a fuel
          = .err (.runtimeExhausted j)) :
    j = maxAttempts + 1 := by
  induction fuel generalizing row k a with
  | zero => simp [intervalSeekDay] at h
  | succ f ih =>
    rw [intervalSeekDay] at h
    split at h
    · rename_i hcond
      exact ih (by omega) h
    · split at h
      · simp at h
      · rename_i hcond hgt
        cases h
        omega

theorem intervalSearch_ok {st : SamplerState} {d : Dataset} {lo hi : ℤ}
    {b_alpha b_beta : ℚ} {name : String} {rng : ℚ → ℚ → ℕ → ℚ}
    {k a fuel : ℕ} {ep : Episode}
    (h : intervalSearch st d lo hi b_alpha b_beta name rng k a fuel = .ok ep) :
    sliceSpan d ep.first_row ep.last_row - st.max_sample_len < st.max_time_gap
    ∧ (∃ row, goodDay d st.start_weekdays row = true
        ∧ ep.first_row = snapRow st.start_00 d row)
    ∧ ep.last_row = (ep.first_row : ℤ) + st.sample_num_records := by
  induction fuel generalizing k a with
  | zero => simp [intervalSearch] at h
  | succ f ih =>
    rw [intervalSearch] at h
    split at h
    · split at h
      · simp at h
      · rename_i row k2 a2 hseek
        split at h
        · rename_i hgap
          cases h
          exact ⟨hgap, ⟨row, (intervalSeekDay_ok hseek).1, rfl⟩, rfl⟩
        · exact ih h
    · simp at h

theorem intervalSearch_err {st : SamplerState} {d : Dataset} {lo hi : ℤ}
    {b_alpha b_beta : ℚ} {name : String} {rng : ℚ → ℚ → ℕ → ℚ}
    {k a fuel : ℕ} {j : ℕ}
    (hA : a ≤ maxAttempts + 1)
    (h : intervalSearch st d lo hi b_alpha b_beta name rng k a fuel
          = .err (.runtimeExhausted j)) :
    j = maxAttempts + 1 := by
  induction fuel generalizing k a with
  | zero => simp [intervalSearch] at h
  | succ f ih =>
    rw [intervalSearch] at h
    split at h
    · rename_i hle
      split at h
      · rename_i e hseek
        cases h
        exact intervalSeekDay_err (by omega) hseek
      · rename_i row k2 a2 hseek
        split at h
        · simp at h
        · have h2 := (intervalSeekDay_ok hseek).2.2
          exact ih (by omega) h
    · rename_i hgt
      cases h
      omega

theorem randomSeekDay_ok {d : Dataset} {wds : List ℤ} {n : ℤ}
    {urng : ℕ → ℚ} {row : ℤ} {k a fuel : ℕ} {row2 : ℤ} {k2 a2 : ℕ}
    (h : randomSeekDay d wds n urng row k a fuel = .ok (row2, k2, a2)) :
    goodDay d wds row2 = true ∧ a ≤ a2 ∧ a2 ≤ maxAttempts := by
  induction fuel generalizing row k a with
  | zero => simp [randomSeekDay] at h
  | succ f ih =>
    rw [randomSeekDay] at h
    split at h
    · have h2 := ih h
      exact ⟨h2.1, by omega, h2.2.2⟩
    · rename_i hcond
      split at h
      · rename_i hle
        have hgd : goodDay d wds row = true := by
          rcases hg : goodDay d wds row with _ | _
          · exact absurd ⟨hg, hle⟩ hcond
          · rfl
        cases h
        exact ⟨hgd, le_refl _, hle⟩
      · simp at h

theorem reset_floor_bridge (st : SamplerState) :
    truncDiv (durSeconds st.sample_duration) (60 * (st.timeframe : ℤ))
      = ⌊(durSeconds st.sample_duration : ℚ) / (60 * (st.timeframe : ℚ))⌋ := by
  rw [truncDiv_of_nonneg _ (durSeconds_nonneg _)]
  have hc : (durSeconds st.sample_duration : ℚ) / (60 * (st.timeframe : ℚ))
      = ((durSeconds st.sample_duration : ℤ) : ℚ) / (((60 * st.timeframe : ℕ)) : ℚ) := by
    push_cast
    ring
  rw [hc, Rat.floor_intCast_div_natCast]
  push_cast
  ring

theorem randomSearch_ok {st : SamplerState} {d : Dataset} {name : String}
    {urng : ℕ → ℚ} {k a fuel : ℕ} {ep : Episode}
    (h : randomSearch st d name urng k a fuel = .ok ep) :
    sliceSpan d ep.first_row ep.last_row - st.max_sample_len < st.max_time_gap
    ∧ (∃ row, goodDay d st.start_weekdays row = true
        ∧ ep.first_row = snapRow st.start_00 d row)
    ∧ ep.last_row = (ep.first_row : ℤ) + st.sample_num_records := by
  induction fuel generalizing k a with
  | zero => simp [randomSearch] at h
  | succ f ih =>
    rw [randomSearch] at h
    split at h
    · split at h
      · simp at h
      · rename_i row k2 a2 hseek
        split at h
        · rename_i hgap
          cases h
          exact ⟨hgap, ⟨row, (randomSeekDay_ok hseek).1, rfl⟩, rfl⟩
        · exact ih h
    · simp at h

theorem finishSample_ok {st : SamplerState} {ty : ℤ} {r : Res Episode}
    {ep : Episode} (h : (finishSample st ty r).2 = .ok ep) :
    (finishSample st ty r).1
      = { st with sample_instance := some ep, sample_num := st.sample_num + 1 }
    ∧ ep.mtype = .num ty ∧ ep.msample_num = st.sample_num
    ∧ ep.parent_sample_num = .num st.meta_sample_num
    ∧ ep.parent_sample_type = st.meta_type := by
  cases r with
  | err e => simp [finishSample] at h
  | ok ep0 =>
    have h2 : ({ ep0 with
                 mtype := .num ty,
                 msample_num := st.sample_num,
                 parent_sample_num := .num st.meta_sample_num,
                 parent_sample_type := st.meta_type } : Episode) = ep := by
      simpa [finishSample] using h
    subst h2
    exact ⟨rfl, rfl, rfl, rfl, rfl⟩

theorem sample_shape (st : SamplerState) (gn : Bool) (ty : ℤ)
    (b_alpha b_beta : ℚ) (rng : ℚ → ℚ → ℕ → ℚ) :
    (_sample st gn ty b_alpha b_beta rng).1 = st
    ∨ ∃ ep, (_sample st gn ty b_alpha b_beta rng).2 = .ok ep := by
  unfold _sample freshSample finishSample
  repeat' split
  all_goals first
    | exact Or.inl rfl
    | exact Or.inr ⟨_, rfl⟩

/-! Claim theorems. -/

/-- C1: for every successfully planned load, `_reset` computes
`episodeRowCount = floor(episodeDuration.totalSeconds / (60 * timeframeMinutes))`,
`testRowCount = round(testPeriodDuration.totalSeconds / (60 * timeframeMinutes))`
(Python `round`, half to even), `trainRowCount = rowCount - testRowCount`,
and installs `trainInterval = [0, trainRowCount)` and
`testInterval = [trainRowCount, rowCount)`, so that
`trainInterval.high = testInterval.low = trainRowCount` and
`testInterval.high = rowCount`. -/
theorem c1_partition_plan (st : SamplerState) (d : Dataset)
    (h : (_reset st d).2 = .ok ()) :
    (_reset st d).1.sample_num_records
        = ⌊(durSeconds st.sample_duration : ℚ) / (60 * (st.timeframe : ℚ))⌋
    ∧ (_reset st d).1.test_num_records
        = roundHalfEvenDiv (durSeconds st.test_period) (60 * (st.timeframe : ℤ))
    ∧ (_reset st d).1.train_num_records
        = (d.rowCount : ℤ) - (_reset st d).1.test_num_records
    ∧ (_reset st d).1.train_interval = (0, (_reset st d).1.train_num_records)
    ∧ (_reset st d).1.test_interval
        = ((_reset st d).1.train_num_records, (d.rowCount : ℤ))
    ∧ (_reset st d).1.train_interval.2 = (_reset st d).1.test_interval.1
    ∧ (_reset st d).1.test_interval.2 = (d.rowCount : ℤ)
    ∧ (_reset st d).1.is_ready = true := by
  simp only [_reset] at h ⊢
  split at h
  · simp at h
  · split at h
    · simp at h
    · rename_i hc1 hc2
      rw [if_neg hc1, if_neg hc2]
      refine ⟨?_, rfl, rfl, rfl, rfl, rfl, rfl, rfl⟩
      exact reset_floor_bridge st

/-- C1 witness: the split reset of `c1State` over `monData` succeeds and
exhibits all the claimed equalities. -/
theorem c1_partition_plan_w :
    (_reset c1State monData).2 = .ok ()
    ∧ ((_reset c1State monData).1.sample_num_records
        = ⌊(durSeconds c1State.sample_duration : ℚ) / (60 * (c1State.timeframe : ℚ))⌋
    ∧ (_reset c1State monData).1.test_num_records
        = roundHalfEvenDiv (durSeconds c1State.test_period) (60 * (c1State.timeframe : ℤ))
    ∧ (_reset c1State monData).1.train_num_records
        = (monData.rowCount : ℤ) - (_reset c1State monData).1.test_num_records
    ∧ (_reset c1State monData).1.train_interval
        = (0, (_reset c1State monData).1.train_num_records)
    ∧ (_reset c1State monData).1.test_interval
        = ((_reset c1State monData).1.train_num_records, (monData.rowCount : ℤ))
    ∧ (_reset c1State monData).1.train_interval.2
        = (_reset c1State monData).1.test_interval.1
    ∧ (_reset c1State monData).1.test_interval.2 = (monData.rowCount : ℤ)
    ∧ (_reset c1State monData).1.is_ready = true) :=
  ⟨by decide, c1_partition_plan c1State monData (by decide)⟩

/-- C5: partition planning raises `InsufficientDataError` exactly when
`trainRowCount < episodeRowCount` or `0 < testRowCount < episodeRowCount`;
on a planning failure the ready flag is left exactly as it was (it is not
cleared), so only an instance that was never ready stays not-ready, with
subsequent `sample` calls failing with `NotReadyError`. -/
theorem c5_planning (st : SamplerState) (d : Dataset) :
    (((_reset st d).2 = .err .insufficientTrain
        ∨ (_reset st d).2 = .err .insufficientTest)
      ↔ ((d.rowCount : ℤ)
            - roundHalfEvenDiv (durSeconds st.test_period) (60 * (st.timeframe : ℤ))
            < truncDiv (durSeconds st.sample_duration) (60 * (st.timeframe : ℤ))
          ∨ (0 < roundHalfEvenDiv (durSeconds st.test_period) (60 * (st.timeframe : ℤ))
              ∧ roundHalfEvenDiv (durSeconds st.test_period) (60 * (st.timeframe : ℤ))
                < truncDiv (durSeconds st.sample_duration) (60 * (st.timeframe : ℤ)))))
    ∧ (∀ e, (_reset st d).2 = .err e → (_reset st d).1.is_ready = st.is_ready)
    ∧ (st.is_ready = false → ∀ e gn ty b_alpha b_beta rng,
        (_reset st d).2 = .err e →
        (_sample ((_reset st d).1) gn ty b_alpha b_beta rng).2 = .err .notReady) := by
  simp only [_reset]
  split_ifs with hc1 hc2
  · refine ⟨iff_of_true (Or.inl rfl) (Or.inl hc1), fun e _ => rfl, ?_⟩
    intro hnr e gn ty b_alpha b_beta rng _
    simp [_sample, hnr]
  · refine ⟨iff_of_true (Or.inr rfl) (Or.inr hc2), fun e _ => rfl, ?_⟩
    intro hnr e gn ty b_alpha b_beta rng _
    simp [_sample, hnr]
  · refine ⟨iff_of_false ?_ ?_, ?_, ?_⟩
    · rintro (he | he) <;> simp at he
    · rintro (hf | hf)
      · exact hc1 hf
      · exact hc2 hf
    · intro e he
      simp at he
    · intro hnr e gn ty b_alpha b_beta rng he
      simp at he

set_option maxRecDepth 8000 in
/-- C5 counterexample: an instance that was reset successfully and then
had its episode duration enlarged through `set_params` fails the next
re-plan with `InsufficientDataError`, yet is left ready (not `Unloaded`),
and the next `sample` call does not raise `NotReadyError` (it even
succeeds), contradicting the claim that every planning failure leaves the
instance not ready. -/
theorem c5_planning_cex :
    (_reset c5ReadyState monData).2 = .err .insufficientTrain
    ∧ (_reset c5ReadyState monData).1.is_ready = true
    ∧ (_sample ((_reset c5ReadyState monData).1) true 0 1 1 rngZero).2
        ≠ .err .notReady := by
  refine ⟨by decide, by decide, by decide⟩

/-- C2 (amended): every episode accepted by `_sample_interval` satisfies
the strict gap bound `realizedDuration - episodeDuration < gapTolerance`,
and its first row is the nearest-timestamp snap of the anchor of a
candidate row whose pre-snap weekday passed the allowed-weekday check
(with an empty allowed set no episode is ever accepted).  The weekday of
the episode's actual first row after snapping, however, need not be in
the set — see the counterexample. -/
theorem c2_accepted (st : SamplerState) (iv : ℤ × ℤ) (b_alpha b_beta : ℚ)
    (name : String) (rng : ℚ → ℚ → ℕ → ℚ) (d : Dataset) (ep : Episode)
    (hd : st.data = some d)
    (h : _sample_interval st iv b_alpha b_beta name rng = .ok ep) :
    sliceSpan d ep.first_row ep.last_row - st.max_sample_len < st.max_time_gap
    ∧ (∃ row, goodDay d st.start_weekdays row = true
        ∧ ep.first_row = snapRow st.start_00 d row)
    ∧ ep.last_row = (ep.first_row : ℤ) + st.sample_num_records := by
  simp only [_sample_interval, hd] at h
  split at h
  · simp at h
  · split at h
    · simp at h
    · split at h
      · simp at h
      · exact intervalSearch_ok h

/-- C2 counterexample: on `gapState` (allowed weekdays `[5]`, midnight
alignment on) the accepted episode's actual first row is row `0`, whose
weekday `4` is not in the non-empty allowed set: the candidate row was a
Saturday record, but snapping its midnight anchor lands on the preceding
Friday record. -/
theorem c2_accepted_cex :
    (_sample_interval gapState (1, 5) 1 1 "x" rngZero).map Episode.first_row
        = Res.ok 0
    ∧ gapState.start_weekdays ≠ []
    ∧ weekday (gapData.ts 0) ∉ gapState.start_weekdays :=
  ⟨by decide, by decide, by decide⟩

/-- C2 witness: a concrete accepted episode on `satState` with its gap
bound and pre-snap weekday membership. -/
theorem c2_accepted_w :
    _sample_interval satState (0, 5) 1 1 "x" rngZero = .ok epSat
    ∧ (sliceSpan satData epSat.first_row epSat.last_row - satState.max_sample_len
          < satState.max_time_gap
      ∧ (∃ row, goodDay satData satState.start_weekdays row = true
          ∧ epSat.first_row = snapRow satState.start_00 satData row)
      ∧ epSat.last_row = (epSat.first_row : ℤ) + satState.sample_num_records) :=
  ⟨by decide,
   c2_accepted satState (0, 5) 1 1 "x" rngZero satData epSat rfl (by decide)⟩

/-- C3 (amended): the retry search of `_sample_interval` uses one single
attempt counter shared between the weekday-seeking inner loop and the
gap-validation outer loop, bounded by `maxAttempts = 100`; whichever loop
exhausts it, the raised error carries counter value `101 = maxAttempts + 1`
(the counter must exceed the budget), not `100`. -/
theorem c3_exhaustion (st : SamplerState) (iv : ℤ × ℤ) (b_alpha b_beta : ℚ)
    (name : String) (rng : ℚ → ℚ → ℕ → ℚ) (j : ℕ)
    (h : _sample_interval st iv b_alpha b_beta name rng
          = .err (.runtimeExhausted j)) :
    j = maxAttempts + 1 := by
  simp only [_sample_interval] at h
  split at h
  · simp at h
  · split at h
    · simp at h
    · split at h
      · simp at h
      · split at h
        · simp at h
        · exact intervalSearch_err (by omega) h

/-- C3 counterexample: on the ten-row Monday dataset whose weekdays are
disjoint from the allowed set `[6]`, `_sample_interval` exhausts with the
shared counter at `101`, not after the claimed `exactly 100` attempts. -/
theorem c3_exhaustion_cex :
    _sample_interval monState (0, 10) 1 1 "x" rngZero
        = .err (.runtimeExhausted 101)
    ∧ (101 : ℕ) ≠ 100 :=
  ⟨by decide, by decide⟩

/-- C3 witness: the concrete exhaustion carries `maxAttempts + 1`. -/
theorem c3_exhaustion_w :
    _sample_interval monState (0, 10) 1 1 "x" rngZero
        = .err (.runtimeExhausted 101)
    ∧ (101 : ℕ) = maxAttempts + 1 :=
  ⟨by decide, c3_exhaustion monState (0, 10) 1 1 "x" rngZero 101 (by decide)⟩

/-- C6 (amended): the weekday-seeking inner loop redraws its candidate as
`interval.low + round((interval.high - interval.low - episodeRowCount) * Beta(a, b))`
with Python `round` (half to even) — not with the `int` truncation of the
initial draw; for a non-negative scaled sample the two formulas differ by
at most one row. -/
theorem c6_redraw (d : Dataset) (wds : List ℤ) (lo hi n : ℤ)
    (b_alpha b_beta : ℚ) (rng : ℚ → ℚ → ℕ → ℚ) (row : ℤ) (k a fuel : ℕ)
    (u : ℚ) (hstep : goodDay d wds row = false ∧ a ≤ maxAttempts)
    (hnn : 0 ≤ (hi - lo - n) * u.num) :
    intervalSeekDay d wds lo hi n b_alpha b_beta rng row k a (fuel + 1)
      = intervalSeekDay d wds lo hi n b_alpha b_beta rng
          (intervalRedraw lo hi n (rng b_alpha b_beta k)) (k + 1) (a + 1) fuel
    ∧ intervalRedraw lo hi n u
        = lo + roundHalfEvenDiv ((hi - lo - n) * u.num) u.den
    ∧ intervalFirstDraw lo hi n u ≤ intervalRedraw lo hi n u
    ∧ intervalRedraw lo hi n u ≤ intervalFirstDraw lo hi n u + 1 := by
  have hb := roundHalfEvenDiv_bounds ((hi - lo - n) * u.num) (u.den : ℤ)
  refine ⟨by rw [intervalSeekDay, if_pos hstep], rfl, ?_, ?_⟩ <;>
  · unfold intervalFirstDraw intervalRedraw pyIntMul pyRoundMul
    rw [truncDiv_of_nonneg _ hnn]
    omega

/-- C6 counterexample: at a scaled sample of `3.5` rows
(`(65 - 0 - 60) * 0.7`), the initial draw yields offset `3` but the inner
redraw yields offset `4`: the redraw does not use the same formula as the
initial draw. -/
theorem c6_redraw_cex :
    intervalRedraw 0 65 60 u07 ≠ intervalFirstDraw 0 65 60 u07
    ∧ intervalFirstDraw 0 65 60 u07 = 3
    ∧ intervalRedraw 0 65 60 u07 = 4 :=
  ⟨by decide, by decide, by decide⟩

/-- C6 witness: a concrete inner-loop step and the concrete redraw
formula and bounds at sample `0.7`. -/
theorem c6_redraw_w :
    (intervalSeekDay monData [6] 0 65 60 1 1 rngZero 0 0 0 6
        = intervalSeekDay monData [6] 0 65 60 1 1 rngZero
            (intervalRedraw 0 65 60 (rngZero 1 1 0)) 1 1 5)
    ∧ intervalRedraw 0 65 60 u07
        = 0 + roundHalfEvenDiv ((65 - 0 - 60) * u07.num) u07.den
    ∧ intervalFirstDraw 0 65 60 u07 ≤ intervalRedraw 0 65 60 u07
    ∧ intervalRedraw 0 65 60 u07 ≤ intervalFirstDraw 0 65 60 u07 + 1 :=
  c6_redraw monData [6] 0 65 60 1 1 rngZero 0 0 0 5 u07
    ⟨by decide, by decide⟩ (by decide)

/-- C7 (amended): `_sample_random` draws its candidate start row as
`int((rowCount - episodeRowCount - 1) * random.random())`: every start in
`[0, rowCount - episodeRowCount - 1)` is reachable, but
`rowCount - episodeRowCount - 1` itself is not (the claimed range
`[0, rowCount - episodeRowCount)` is off by one); it applies the identical
weekday check, midnight-alignment snap, slicing and strict gap-tolerance
acceptance per candidate as `_sample_interval`. -/
theorem c7_random (rc n : ℤ) (u : ℚ) (h0 : 0 ≤ u) (h1 : u < 1)
    (hm : 0 < rc - n - 1) :
    0 ≤ randomDraw rc n u ∧ randomDraw rc n u < rc - n - 1
    ∧ (∀ kk : ℤ, 0 ≤ kk → kk < rc - n - 1 →
        ∃ v : ℚ, 0 ≤ v ∧ v < 1 ∧ randomDraw rc n v = kk)
    ∧ (∀ (st : SamplerState) (d : Dataset) (name : String) (urng : ℕ → ℚ)
          (ep : Episode),
        st.data = some d → _sample_random st name urng = .ok ep →
        sliceSpan d ep.first_row ep.last_row - st.max_sample_len < st.max_time_gap
        ∧ (∃ row, goodDay d st.start_weekdays row = true
            ∧ ep.first_row = snapRow st.start_00 d row)
        ∧ ep.last_row = (ep.first_row : ℤ) + st.sample_num_records) := by
  have hmQ : (0 : ℚ) < ((rc - n - 1 : ℤ) : ℚ) := by exact_mod_cast hm
  have hfl : randomDraw rc n u = ⌊((rc - n - 1 : ℤ) : ℚ) * u⌋ :=
    pyIntMul_eq_floor _ u hm.le h0
  refine ⟨?_, ?_, ?_, ?_⟩
  · rw [hfl]
    exact Int.floor_nonneg.mpr (mul_nonneg hmQ.le h0)
  · rw [hfl]
    apply Int.floor_lt.mpr
    calc ((rc - n - 1 : ℤ) : ℚ) * u
        < ((rc - n - 1 : ℤ) : ℚ) * 1 := by
          exact mul_lt_mul_of_pos_left h1 hmQ
      _ = ((rc - n - 1 : ℤ) : ℚ) := by ring
  · intro kk hk0 hk1
    refine ⟨(kk : ℚ) / ((rc - n - 1 : ℤ) : ℚ), ?_, ?_, ?_⟩
    · exact div_nonneg (by exact_mod_cast hk0) hmQ.le
    · exact (div_lt_one hmQ).mpr (by exact_mod_cast hk1)
    · unfold randomDraw
      rw [pyIntMul_eq_floor _ _ hm.le
        (div_nonneg (by exact_mod_cast hk0) hmQ.le)]
      rw [mul_comm, div_mul_cancel₀ _ (ne_of_gt hmQ)]
      exact Int.floor_intCast kk
  · intro st d name urng ep hds hok
    simp only [_sample_random, hds] at hok
    split at hok
    · simp at hok
    · exact randomSearch_ok hok

/-- C7 counterexample: with `rowCount = 10` and `episodeRowCount = 2`, the
claimed maximal start position `rowCount - episodeRowCount - 1 = 7` is not
reachable by any uniform sample in `[0, 1)`. -/
theorem c7_random_cex :
    ¬ ∃ u : ℚ, 0 ≤ u ∧ u < 1 ∧ randomDraw 10 2 u = 7 := by
  rintro ⟨u, h0, h1, he⟩
  have hnum : 0 ≤ u.num := Rat.num_nonneg.mpr h0
  have hden := num_lt_den_of_lt_one h1
  have hd : (0 : ℤ) < (u.den : ℤ) := by exact_mod_cast u.den_pos
  unfold randomDraw pyIntMul at he
  norm_num at he
  rw [truncDiv_of_nonneg _ (by positivity)] at he
  have hlt : (7 * u.num) / (u.den : ℤ) < 7 := by
    rw [Int.ediv_lt_iff_lt_mul hd]
    omega
  omega

/-- C7 witness: the draw bounds and reachability at `rowCount = 10`,
`episodeRowCount = 2`, together with a concrete accepted random episode
satisfying the shared gap/weekday validation facts. -/
theorem c7_random_w :
    (0 ≤ randomDraw 10 2 u07 ∧ randomDraw 10 2 u07 < 10 - 2 - 1)
    ∧ (∃ v : ℚ, 0 ≤ v ∧ v < 1 ∧ randomDraw 10 2 v = 6)
    ∧ (sliceSpan satData epRand.first_row epRand.last_row
          - satState.max_sample_len < satState.max_time_gap
      ∧ (∃ row, goodDay satData satState.start_weekdays row = true
          ∧ epRand.first_row = snapRow satState.start_00 satData row)
      ∧ epRand.last_row = (epRand.first_row : ℤ) + satState.sample_num_records) := by
  have h := c7_random 10 2 u07 (by decide) (by decide) (by decide)
  exact ⟨⟨h.1, h.2.1⟩, h.2.2.1 6 (by decide) (by decide),
    h.2.2.2 satState satData "r_" urngZero epRand rfl (by decide)⟩

/-- C4: on a ready instance holding a cached episode, `sample` with
`getNew = false` returns exactly the cached episode and leaves the whole
instance state (cache, sample counter, metadata) unchanged, so a second
identical call returns the identical episode again. -/
theorem c4_cached_reuse (st : SamplerState) (ep : Episode) (ty : ℤ)
    (b_alpha b_beta : ℚ) (rng : ℚ → ℚ → ℕ → ℚ)
    (hr : st.is_ready = true) (hty : ty = 0 ∨ ty = 1)
    (hc : st.sample_instance = some ep) :
    _sample st false ty b_alpha b_beta rng = (st, .ok ep)
    ∧ _sample ((_sample st false ty b_alpha b_beta rng).1) false ty
        b_alpha b_beta rng = (st, .ok ep) := by
  have h1 : _sample st false ty b_alpha b_beta rng = (st, .ok ep) := by
    unfold _sample
    rcases hty with rfl | rfl <;> simp [hr, hc]
  refine ⟨h1, ?_⟩
  rw [h1]
  exact h1

/-- C4 witness: the cached episode of `cachedState` is returned unchanged
by two consecutive reuse calls. -/
theorem c4_cached_reuse_w :
    _sample cachedState false 0 1 1 rngZero = (cachedState, .ok cachedEp)
    ∧ _sample ((_sample cachedState false 0 1 1 rngZero).1) false 0 1 1
        rngZero = (cachedState, .ok cachedEp) :=
  c4_cached_reuse cachedState cachedEp 0 1 1 rngZero rfl (Or.inl rfl) rfl

/-- C8: a fresh `sample` request with `sampleType = 1` dispatches to
`_sample_interval` over the test interval with beta parameters fixed to
`(1, 1)` — the caller-supplied beta parameters are ignored, so the result
does not depend on them — while `sampleType = 0` forwards the caller's
parameters over the train interval. -/
theorem c8_test_uniform (st : SamplerState) (gn : Bool) (b_alpha b_beta : ℚ)
    (rng : ℚ → ℚ → ℕ → ℚ) (hr : st.is_ready = true)
    (hf : st.sample_instance = none ∨ gn = true) :
    _sample st gn 1 b_alpha b_beta rng = _sample st gn 1 1 1 rng
    ∧ _sample st gn 1 b_alpha b_beta rng
        = finishSample st 1 (_sample_interval st st.test_interval 1 1
            ("test_" ++ st.sample_name) rng)
    ∧ _sample st gn 0 b_alpha b_beta rng
        = finishSample st 0 (_sample_interval st st.train_interval
            b_alpha b_beta ("train_" ++ st.sample_name) rng) := by
  have key : ∀ (ty : ℤ) (a2 b2 : ℚ), ty = 0 ∨ ty = 1 →
      _sample st gn ty a2 b2 rng = freshSample st ty a2 b2 rng := by
    intro ty a2 b2 hty
    unfold _sample
    rcases hf with hnone | rfl
    · rcases hty with rfl | rfl <;> simp [hr, hnone]
    · cases hsi : st.sample_instance <;> rcases hty with rfl | rfl <;>
        simp [hr, hsi]
  refine ⟨?_, ?_, ?_⟩
  · rw [key 1 b_alpha b_beta (Or.inr rfl), key 1 1 1 (Or.inr rfl)]
    unfold freshSample
    simp
  · rw [key 1 b_alpha b_beta (Or.inr rfl)]
    unfold freshSample
    simp
  · rw [key 0 b_alpha b_beta (Or.inl rfl)]
    unfold freshSample
    simp

/-- C8 witness: on `satState`, a fresh test sample with caller parameters
`(2, 3)` equals the one with `(1, 1)` and equals the uniform dispatch over
the test interval, while a train sample forwards `(2, 3)` over the train
interval. -/
theorem c8_test_uniform_w :
    _sample satState true 1 2 3 rngZero = _sample satState true 1 1 1 rngZero
    ∧ _sample satState true 1 2 3 rngZero
        = finishSample satState 1 (_sample_interval satState
            satState.test_interval 1 1 ("test_" ++ satState.sample_name) rngZero)
    ∧ _sample satState true 0 2 3 rngZero
        = finishSample satState 0 (_sample_interval satState
            satState.train_interval 2 3 ("train_" ++ satState.sample_name) rngZero) :=
  c8_test_uniform satState true 2 3 rngZero rfl (Or.inr rfl)

/-- C9: `sample` is all-or-nothing: whenever it fails with any error, the
instance state (cache, sample counter, metadata) is exactly what it was
before the call. -/
theorem c9_all_or_nothing (st : SamplerState) (gn : Bool) (ty : ℤ)
    (b_alpha b_beta : ℚ) (rng : ℚ → ℚ → ℕ → ℚ) (e : SErr)
    (h : (_sample st gn ty b_alpha b_beta rng).2 = .err e) :
    (_sample st gn ty b_alpha b_beta rng).1 = st := by
  rcases sample_shape st gn ty b_alpha b_beta rng with hok | ⟨ep, hep⟩
  · exact hok
  · rw [hep] at h
    simp at h

/-- C9 witness: a not-ready instance fails with `NotReadyError` and is
left exactly as it was. -/
theorem c9_all_or_nothing_w :
    (_sample notReadyState true 0 1 1 rngZero).2 = .err .notReady
    ∧ (_sample notReadyState true 0 1 1 rngZero).1 = notReadyState :=
  ⟨by decide,
   c9_all_or_nothing notReadyState true 0 1 1 rngZero .notReady (by decide)⟩

/-- C10: on an instance with no cached episode, `sample` with
`getNew = false` behaves exactly as `getNew = true` would; when the fresh
sample succeeds it stamps lineage metadata from the instance's own
metadata, assigns the running sample counter, increments it, and caches
the returned episode. -/
theorem c10_no_cache (st : SamplerState) (ty : ℤ) (b_alpha b_beta : ℚ)
    (rng : ℚ → ℚ → ℕ → ℚ) (hn : st.sample_instance = none) :
    _sample st false ty b_alpha b_beta rng = _sample st true ty b_alpha b_beta rng
    ∧ ∀ ep, (_sample st false ty b_alpha b_beta rng).2 = .ok ep →
        (_sample st false ty b_alpha b_beta rng).1
          = { st with sample_instance := some ep,
                      sample_num := st.sample_num + 1 }
        ∧ ep.mtype = .num ty ∧ ep.msample_num = st.sample_num
        ∧ ep.parent_sample_num = .num st.meta_sample_num
        ∧ ep.parent_sample_type = st.meta_type := by
  constructor
  · simp [_sample, hn]
  · intro ep h
    by_cases h1 : st.is_ready = false
    · rw [_sample, if_pos h1] at h
      simp at h
    · by_cases h2 : ty = 0 ∨ ty = 1
      · have hfr : _sample st false ty b_alpha b_beta rng
            = freshSample st ty b_alpha b_beta rng := by
          unfold _sample
          rw [if_neg h1, if_neg (not_not_intro h2), hn]
        rw [hfr] at h ⊢
        unfold freshSample at h ⊢
        exact finishSample_ok h
      · rw [_sample, if_neg h1, if_pos h2] at h
        simp at h

/-- C10 witness: on `satState` (no cache) the reuse request equals the
fresh request and produces the concrete stamped, cached episode. -/
theorem c10_no_cache_w :
    _sample satState false 0 1 1 rngZero = _sample satState true 0 1 1 rngZero
    ∧ ((_sample satState false 0 1 1 rngZero).2 = .ok epTrain
    ∧ (_sample satState false 0 1 1 rngZero).1
        = { satState with sample_instance := some epTrain,
                          sample_num := satState.sample_num + 1 }
    ∧ epTrain.mtype = .num 0 ∧ epTrain.msample_num = satState.sample_num
    ∧ epTrain.parent_sample_num = .num satState.meta_sample_num
    ∧ epTrain.parent_sample_type = satState.meta_type) := by
  have h := c10_no_cache satState 0 1 1 rngZero rfl
  have h2 := h.2 epTrain (by decide)
  exact ⟨h.1, by decide, h2.1, h2.2⟩

/-- C5 witness: on a never-ready instance the failing plan leaves the
ready flag untouched (hence false) and sampling raises `NotReadyError`. -/
theorem c5_planning_w :
    (_reset c5FailState monData).2 = .err .insufficientTrain
    ∧ (_reset c5FailState monData).1.is_ready = c5FailState.is_ready
    ∧ (_sample ((_reset c5FailState monData).1) true 0 1 1 rngZero).2
        = .err .notReady := by
  have h := c5_planning c5FailState monData
  exact ⟨by decide, h.2.1 .insufficientTrain (by decide),
    h.2.2 (by decide) .insufficientTrain true 0 1 1 rngZero (by decide)⟩

end Btgym
